import Mathlib

/-!
Shallow embedding of the session synchronization engine implemented in
src/backend/server.js (Valve VTT backend).

JS objects are string-keyed maps with insertion order; we embed them as
association lists (lookup returns the first binding, set updates the first
binding in place or appends a new one).  WebSocket objects are embedded as
natural-number connection ids, with their mutable fields (_role, _roomCode,
_name, _playerId, _alive, readyState) collected in a ConnState map.
Opaque JSON payloads (fichaData) are embedded as Option String: none stands
for JS undefined or null, some s for a (truthy) JSON object with
serialization s.  The nondeterministic inputs of a handler run, Date.now and
the random draws of genCode and genId, are passed in explicitly through a
Gen record, so every handler is a pure function from state and message to
state and the list of (recipient, message) pairs it sends.
-/

set_option maxRecDepth 8000

def alookup {κ α : Type} [DecidableEq κ] : List (κ × α) → κ → Option α
  | [], _ => none
  | (k', v) :: t, k => if k' = k then some v else alookup t k

def aset {κ α : Type} [DecidableEq κ] : List (κ × α) → κ → α → List (κ × α)
  | [], k, v => [(k, v)]
  | (k', v') :: t, k, v => if k' = k then (k, v) :: t else (k', v') :: aset t k v

/-- JS truthiness for a field that is either absent (undefined or null) or a
string: undefined, null and the empty string are falsy. -/
def truthy : Option String → Bool
  | none => false
  | some s => !(s == "")

def isWsChar (c : Char) : Bool := c == ' ' || c == '\t' || c == '\n' || c == '\r'

/-- String.prototype.trim of JS, restricted to the common whitespace chars. -/
def jsTrim (s : String) : String :=
  String.mk (((s.toList.dropWhile isWsChar).reverse.dropWhile isWsChar).reverse)

/-- String.prototype.toUpperCase of JS, on ASCII data. -/
def jsToUpper (s : String) : String := String.mk (s.toList.map Char.toUpper)

/-- Serialization of the empty JSON object. -/
def emptyObj : String := "\x7b\x7d"

structure DBPlayer where
  name : Option String
  fichaData : Option String
deriving DecidableEq

structure DBRoom where
  masterName : String
  sessionName : String
  createdAt : Nat
  players : List (String × DBPlayer)
deriving DecidableEq

structure DB where
  rooms : List (String × DBRoom)
deriving DecidableEq

structure LivePlayer where
  ws : Option Nat
  name : Option String
  fichaData : Option String
deriving DecidableEq

structure LiveRoom where
  masterWs : Option Nat
  players : List (String × LivePlayer)
deriving DecidableEq

structure ConnState where
  role : Option String
  roomCode : Option String
  name : Option String
  playerId : Option String
  isOpen : Bool
  alive : Bool
deriving DecidableEq

structure ServerState where
  db : DB
  live : List (String × LiveRoom)
  conns : List (Nat × ConnState)
deriving DecidableEq

structure PlayerSnap where
  id : String
  name : Option String
  online : Bool
deriving DecidableEq

inductive Msg where
  | create_room (masterName sessionName : Option String)
  | join_room (playerName roomCode : Option String)
  | reconnect (role name roomCode : Option String)
  | ficha_data (fichaData : Option String)
  | request_ficha (playerId : Option String)
  | pong
  | other
deriving DecidableEq

inductive OutMsg where
  | room_created (roomCode : String) (sessionName : String) (masterName : Option String)
  | room_joined (roomCode : String) (sessionName : String) (playerId : String)
  | room_error (message : String)
  | players_update (players : List (String × PlayerSnap))
  | ficha_update (playerId : Option String) (fichaData : Option String)
  | send_ficha
  | master_left
deriving DecidableEq

/-- The nondeterministic inputs of one handler run: Date.now, the random
draws consumed by genCode (four indices into the 32-char alphabet per
candidate), and the string genId would return. -/
structure Gen where
  now : Nat
  cand : Nat → Fin 4 → Fin 32
  fid : String

def roomChars : List Char := "ABCDEFGHJKLMNPQRSTUVWXYZ23456789".toList

/-- genCode of server.js: the constant prefix VALVE- followed by four
characters drawn from roomChars by the given random indices. -/
def genCode (r : Fin 4 → Fin 32) : String :=
  "VALVE-" ++ String.mk [roomChars.getD (r 0).val 'A', roomChars.getD (r 1).val 'A',
    roomChars.getD (r 2).val 'A', roomChars.getD (r 3).val 'A']

/-- The do-while retry loop of create_room: candidate i is regenerated while
it collides with a stored room code and fuel regenerations remain; with fuel
exhausted (attempt 20) the candidate is accepted unchecked. -/
def pickAux (db : DB) (cand : Nat → Fin 4 → Fin 32) : Nat → Nat → String
  | i, 0 => genCode (cand i)
  | i, fuel + 1 =>
    let c := genCode (cand i)
    if (alookup db.rooms c).isSome then pickAux db cand (i + 1) fuel else c

def pickCode (db : DB) (cand : Nat → Fin 4 → Fin 32) : String := pickAux db cand 0 19

def defaultConn : ConnState :=
  { role := none, roomCode := none, name := none, playerId := none,
    isOpen := false, alive := false }

def getConn (s : ServerState) (cid : Nat) : ConnState :=
  (alookup s.conns cid).getD defaultConn

/-- send of server.js: delivers only when the target readyState is OPEN. -/
def send1 (s : ServerState) (cid : Nat) (m : OutMsg) : List (Nat × OutMsg) :=
  if (getConn s cid).isOpen then [(cid, m)] else []

/-- broadcastRoom of server.js: the master connection first, then every
player connection in insertion order, skipping the excluded socket and any
socket that is not OPEN. -/
def broadcastRoom (s : ServerState) (code : String) (m : OutMsg) (exclude : Option Nat) :
    List (Nat × OutMsg) :=
  match alookup s.live code with
  | none => []
  | some room =>
    let toMaster :=
      match room.masterWs with
      | some w => if exclude ≠ some w ∧ (getConn s w).isOpen then [(w, m)] else []
      | none => []
    let toPlayers := room.players.filterMap (fun ip =>
      match ip.2.ws with
      | some w => if exclude ≠ some w ∧ (getConn s w).isOpen then some (w, m) else none
      | none => none)
    toMaster ++ toPlayers

/-- playersSnapshot of server.js: one entry per live-registry participant,
online iff a live OPEN socket is attached. -/
def playersSnapshot (s : ServerState) (code : String) : List (String × PlayerSnap) :=
  match alookup s.live code with
  | none => []
  | some room => room.players.map (fun ip =>
    (ip.1, { id := ip.1, name := ip.2.name,
             online := match ip.2.ws with
                       | some w => (getConn s w).isOpen
                       | none => false }))

def roomNotFoundMsg : String := "Sala não encontrada. Verifique o código."

/-- The live players seeded from the Durable Store when join_room
materializes a live room (Restaura jogadores do banco). -/
def seedLivePlayers (ps : List (String × DBPlayer)) : List (String × LivePlayer) :=
  ps.map (fun ip =>
    (ip.1, { ws := none, name := ip.2.name, fichaData := some (ip.2.fichaData.getD emptyObj) }))

/-- handleMsg case create_room. -/
def handleCreateRoom (g : Gen) (s : ServerState) (wsId : Nat) (mn sn : Option String) :
    ServerState × List (Nat × OutMsg) :=
  if truthy mn ∧ truthy sn then
    let code := pickCode s.db g.cand
    let newRoom : DBRoom :=
      { masterName := mn.getD "", sessionName := sn.getD "", createdAt := g.now, players := [] }
    let db2 : DB := { rooms := aset s.db.rooms code newRoom }
    let live2 := aset s.live code { masterWs := some wsId, players := [] }
    let conn2 := { getConn s wsId with role := some "master", roomCode := some code, name := mn }
    let s2 : ServerState := { db := db2, live := live2, conns := aset s.conns wsId conn2 }
    (s2, send1 s2 wsId (.room_created code (sn.getD "") mn))
  else (s, [])

/-- Garante que a sala está em memória: if no live entry exists, create one
with the given seed player list (join_room seeds from the Durable Store,
reconnect seeds nothing). -/
def ensureLive (s : ServerState) (code : String) (seed : List (String × LivePlayer)) :
    List (String × LiveRoom) :=
  match alookup s.live code with
  | some _ => s.live
  | none => aset s.live code { masterWs := none, players := seed }

/-- The success branch of handleMsg case join_room (room found in the
Durable Store), with code already normalized. -/
def joinSuccess (g : Gen) (s : ServerState) (wsId : Nat) (pn : Option String) (code : String)
    (dbRoom : DBRoom) : ServerState × List (Nat × OutMsg) :=
  let live1 := ensureLive s code (seedLivePlayers dbRoom.players)
  let playerId := g.fid
  let room1 := (alookup live1 code).getD { masterWs := none, players := [] }
  let newLP : LivePlayer := { ws := some wsId, name := pn, fichaData := some emptyObj }
  let live2 := aset live1 code { room1 with players := aset room1.players playerId newLP }
  let conn1 := getConn s wsId
  let conn2 := { conn1 with role := some "player", roomCode := some code, name := pn, playerId := some playerId }
  let newDP : DBPlayer := { name := pn, fichaData := some emptyObj }
  let dbRoom2 : DBRoom := { dbRoom with players := aset dbRoom.players playerId newDP }
  let db2 : DB := { rooms := aset s.db.rooms code dbRoom2 }
  let s2 : ServerState := { db := db2, live := live2, conns := aset s.conns wsId conn2 }
  (s2, send1 s2 wsId (.room_joined code dbRoom.sessionName playerId) ++
       broadcastRoom s2 code (.players_update (playersSnapshot s2 code)) none)

/-- handleMsg case join_room. -/
def handleJoinRoom (g : Gen) (s : ServerState) (wsId : Nat) (pn rc : Option String) :
    ServerState × List (Nat × OutMsg) :=
  if truthy pn ∧ truthy rc then
    let code := jsToUpper (jsTrim (rc.getD ""))
    match alookup s.db.rooms code with
    | none => (s, send1 s wsId (.room_error roomNotFoundMsg))
    | some dbRoom => joinSuccess g s wsId pn code dbRoom
  else (s, [])

/-- handleMsg case reconnect.  Note the roomCode is uppercased but not
trimmed, and the live entry, when missing, is created with an empty player
map (no seeding from the Durable Store). -/
def reconnectMasterCase (s : ServerState) (wsId : Nat) (role name : Option String) (code : String)
    (dbRoom : DBRoom) : ServerState × List (Nat × OutMsg) :=
  let live1 := ensureLive s code []
  let room1 := (alookup live1 code).getD { masterWs := none, players := [] }
  let live2 := aset live1 code { room1 with masterWs := some wsId }
  let conn1 := getConn s wsId
  let conn2 := { conn1 with role := role, roomCode := some code, name := name }
  let s2 : ServerState := { s with live := live2, conns := aset s.conns wsId conn2 }
  (s2, send1 s2 wsId (.room_created code dbRoom.sessionName name) ++
       send1 s2 wsId (.players_update (playersSnapshot s2 code)))

def reconnectPlayerCase (g : Gen) (s : ServerState) (wsId : Nat) (role name : Option String)
    (code : String) (dbRoom : DBRoom) : ServerState × List (Nat × OutMsg) :=
  let live1 := ensureLive s code []
  let playerId := g.fid
  let room1 := (alookup live1 code).getD { masterWs := none, players := [] }
  let newLP : LivePlayer := { ws := some wsId, name := name, fichaData := some emptyObj }
  let live2 := aset live1 code { room1 with players := aset room1.players playerId newLP }
  let conn1 := getConn s wsId
  let conn2 := { conn1 with role := role, roomCode := some code, name := name, playerId := some playerId }
  let s2 : ServerState := { s with live := live2, conns := aset s.conns wsId conn2 }
  (s2, send1 s2 wsId (.room_joined code dbRoom.sessionName playerId) ++
       broadcastRoom s2 code (.players_update (playersSnapshot s2 code)) none)

def handleReconnect (g : Gen) (s : ServerState) (wsId : Nat) (role name rc : Option String) :
    ServerState × List (Nat × OutMsg) :=
  match rc.map jsToUpper with
  | none => (s, [])
  | some code =>
    if code = "" then (s, [])
    else
      match alookup s.db.rooms code with
      | none => (s, [])
      | some dbRoom =>
        if role = some "master" then reconnectMasterCase s wsId role name code dbRoom
        else reconnectPlayerCase g s wsId role name code dbRoom

/-- handleMsg case ficha_data.  A missing _playerId reads the JS property
key "undefined". -/
def handleFichaData (s : ServerState) (wsId : Nat) (fd : Option String) :
    ServerState × List (Nat × OutMsg) :=
  let conn := getConn s wsId
  if conn.role = some "player" ∧ truthy conn.roomCode then
    let code := conn.roomCode.getD ""
    match alookup s.live code with
    | none => (s, [])
    | some room =>
      let pid := conn.playerId.getD "undefined"
      let room2 :=
        match alookup room.players pid with
        | some p => { room with players := aset room.players pid { p with fichaData := fd } }
        | none => room
      let db2 : DB :=
        match alookup s.db.rooms code with
        | some dr =>
          match alookup dr.players pid with
          | some dp =>
            let dr2 : DBRoom := { dr with players := aset dr.players pid { dp with fichaData := fd } }
            { rooms := aset s.db.rooms code dr2 }
          | none => s.db
        | none => s.db
      let s2 : ServerState := { s with live := aset s.live code room2, db := db2 }
      let sends :=
        match room.masterWs with
        | some m => send1 s2 m (.ficha_update conn.playerId fd)
        | none => []
      (s2, sends)
  else (s, [])

/-- The cached payload request_ficha serves from the Durable Store: the
optional chain over room and participant followed by a fallback to the
empty object. -/
def cachedFicha (s : ServerState) (code : String) (pidKey : String) : Option String :=
  some ((((alookup s.db.rooms code).bind (fun dr => alookup dr.players pidKey)).bind
    (fun dp => dp.fichaData)).getD emptyObj)

/-- handleMsg case request_ficha. -/
def handleRequestFicha (s : ServerState) (wsId : Nat) (pid : Option String) :
    ServerState × List (Nat × OutMsg) :=
  let conn := getConn s wsId
  if conn.role = some "master" ∧ truthy conn.roomCode then
    let code := conn.roomCode.getD ""
    match alookup s.live code with
    | none => (s, [])
    | some room =>
      let pidKey := pid.getD "undefined"
      let fb := (s, send1 s wsId (.ficha_update pid (cachedFicha s code pidKey)))
      match alookup room.players pidKey with
      | some p =>
        match p.ws with
        | some w => if (getConn s w).isOpen then (s, send1 s w .send_ficha) else fb
        | none => fb
      | none => fb
  else (s, [])

/-- handleMsg of server.js: dispatch on the message type discriminator;
unrecognized kinds are ignored. -/
def handleMsg (g : Gen) (s : ServerState) (wsId : Nat) (m : Msg) :
    ServerState × List (Nat × OutMsg) :=
  match m with
  | .create_room mn sn => handleCreateRoom g s wsId mn sn
  | .join_room pn rc => handleJoinRoom g s wsId pn rc
  | .reconnect role name rc => handleReconnect g s wsId role name rc
  | .ficha_data fd => handleFichaData s wsId fd
  | .request_ficha pid => handleRequestFicha s wsId pid
  | .pong => ({ s with conns := aset s.conns wsId { getConn s wsId with alive := true } }, [])
  | .other => (s, [])

/-- handleDisconnect of server.js. -/
def handleDisconnect (s : ServerState) (wsId : Nat) : ServerState × List (Nat × OutMsg) :=
  let conn := getConn s wsId
  match conn.roomCode with
  | none => (s, [])
  | some code =>
    if code = "" then (s, [])
    else
      match alookup s.live code with
      | none => (s, [])
      | some room =>
        if conn.role = some "master" then
          let s2 : ServerState := { s with live := aset s.live code { room with masterWs := none } }
          (s2, broadcastRoom s2 code .master_left none)
        else if conn.role = some "player" ∧ truthy conn.playerId then
          let pid := conn.playerId.getD "undefined"
          let room2 :=
            match alookup room.players pid with
            | some p => { room with players := aset room.players pid { p with ws := none } }
            | none => room
          let s2 : ServerState := { s with live := aset s.live code room2 }
          (s2, broadcastRoom s2 code (.players_update (playersSnapshot s2 code)) none)
        else (s, [])

def TTL_MS : Nat := 48 * 3600 * 1000

def isOld (cutoff : Nat) (r : DBRoom) : Bool := r.createdAt < cutoff

/-- The retention sweeper interval body of server.js: every Durable Store
room with createdAt before now minus 48 hours is deleted from the Durable
Store and from the Live Registry. -/
def sweepRooms (now : Nat) (s : ServerState) : ServerState :=
  let cutoff := now - TTL_MS
  { s with
    db := { rooms := s.db.rooms.filter (fun cr => !(isOld cutoff cr.2)) },
    live := s.live.filter (fun cl =>
      match alookup s.db.rooms cl.1 with
      | some r => !(isOld cutoff r)
      | none => true) }


/-! ### Association list lemmas -/

theorem alookup_aset_self {κ α : Type} [DecidableEq κ] (l : List (κ × α)) (k : κ) (v : α) :
    alookup (aset l k v) k = some v := by
  induction l with
  | nil => simp [aset, alookup]
  | cons hd t ih =>
    obtain ⟨k0, v0⟩ := hd
    by_cases hk : k0 = k
    · simp [aset, hk, alookup]
    · simp [aset, hk, alookup, ih]

theorem alookup_aset_ne {κ α : Type} [DecidableEq κ] (l : List (κ × α)) (k k' : κ) (v : α)
    (h : k' ≠ k) : alookup (aset l k v) k' = alookup l k' := by
  have hk : ¬(k = k') := fun e => h e.symm
  induction l with
  | nil => simp [aset, alookup, hk]
  | cons hd t ih =>
    obtain ⟨k0, v0⟩ := hd
    by_cases h0 : k0 = k
    · subst h0
      simp [aset, alookup, hk]
    · simp only [aset, if_neg h0, alookup]
      by_cases h1 : k0 = k' <;> simp [h1, ih]

theorem alookup_map_pair {κ α β : Type} [DecidableEq κ] (g : κ × α → β) (l : List (κ × α))
    (k : κ) : alookup (l.map (fun p => (p.1, g p))) k = (alookup l k).map (fun v => g (k, v)) := by
  induction l with
  | nil => simp [alookup]
  | cons hd t ih =>
    obtain ⟨k0, v0⟩ := hd
    by_cases hk : k0 = k
    · subst hk; simp [alookup]
    · simp [alookup, hk, ih]

theorem alookup_none_of_not_mem {κ α : Type} [DecidableEq κ] (l : List (κ × α)) (k : κ)
    (h : k ∉ l.map Prod.fst) : alookup l k = none := by
  induction l with
  | nil => rfl
  | cons hd t ih =>
    obtain ⟨k0, v0⟩ := hd
    simp only [List.map_cons, List.mem_cons] at h
    push_neg at h
    have h0 : ¬(k0 = k) := fun e => h.1 e.symm
    simp [alookup, h0, ih h.2]

theorem alookup_filter_first_pos {κ α : Type} [DecidableEq κ] (p : κ × α → Bool)
    (l : List (κ × α)) (k : κ) (v : α) (h : alookup l k = some v) (hp : p (k, v) = true) :
    alookup (l.filter p) k = some v := by
  induction l with
  | nil => simp [alookup] at h
  | cons hd t ih =>
    obtain ⟨k0, v0⟩ := hd
    by_cases hk : k0 = k
    · subst hk
      simp only [alookup, if_pos rfl] at h
      obtain rfl : v0 = v := by injection h
      simp [List.filter_cons, hp, alookup]
    · simp only [alookup, if_neg hk] at h
      cases hq : p (k0, v0) <;> simp [List.filter_cons, hq, alookup, hk, ih h]

theorem alookup_filter_none {κ α : Type} [DecidableEq κ] (p : κ × α → Bool) (l : List (κ × α))
    (k : κ) (h : alookup l k = none) : alookup (l.filter p) k = none := by
  induction l with
  | nil => rfl
  | cons hd t ih =>
    obtain ⟨k0, v0⟩ := hd
    by_cases hk : k0 = k
    · subst hk; simp [alookup] at h
    · simp only [alookup, if_neg hk] at h
      cases hq : p (k0, v0) <;> simp [List.filter_cons, hq, alookup, hk, ih h]

theorem alookup_filter_nodup_neg {κ α : Type} [DecidableEq κ] (p : κ × α → Bool)
    (l : List (κ × α)) (k : κ) (v : α) (hnd : (l.map Prod.fst).Nodup)
    (h : alookup l k = some v) (hp : p (k, v) = false) : alookup (l.filter p) k = none := by
  induction l with
  | nil => simp [alookup] at h
  | cons hd t ih =>
    obtain ⟨k0, v0⟩ := hd
    simp only [List.map_cons, List.nodup_cons] at hnd
    by_cases hk : k0 = k
    · subst hk
      simp only [alookup, if_pos rfl] at h
      obtain rfl : v0 = v := by injection h
      rw [List.filter_cons, if_neg (by simp [hp])]
      exact alookup_filter_none p t k0 (alookup_none_of_not_mem t k0 hnd.1)
    · simp only [alookup, if_neg hk] at h
      rw [List.filter_cons]
      by_cases hq : p (k0, v0) = true
      · rw [if_pos hq]
        simp only [alookup, if_neg hk]
        exact ih hnd.2 h
      · rw [if_neg hq]
        exact ih hnd.2 h

theorem alookup_filter_key_pos {κ α : Type} [DecidableEq κ] (p : κ × α → Bool)
    (l : List (κ × α)) (k : κ) (h : ∀ v, p (k, v) = true) :
    alookup (l.filter p) k = alookup l k := by
  induction l with
  | nil => rfl
  | cons hd t ih =>
    obtain ⟨k0, v0⟩ := hd
    by_cases hk : k0 = k
    · subst hk; simp [List.filter_cons, h v0, alookup, ih]
    · cases hq : p (k0, v0) <;> simp [List.filter_cons, hq, alookup, hk, ih]

theorem alookup_filter_key_neg {κ α : Type} [DecidableEq κ] (p : κ × α → Bool)
    (l : List (κ × α)) (k : κ) (h : ∀ v, p (k, v) = false) :
    alookup (l.filter p) k = none := by
  induction l with
  | nil => rfl
  | cons hd t ih =>
    obtain ⟨k0, v0⟩ := hd
    by_cases hk : k0 = k
    · subst hk; simp [List.filter_cons, h v0, alookup, ih]
    · cases hq : p (k0, v0) <;> simp [List.filter_cons, hq, alookup, hk, ih]

/-! ### Concrete fixtures used by witnesses and counterexamples -/

def genA : Gen := { now := 5, cand := fun _ _ => 0, fid := "pX" }

def genB : Gen := { now := 6, cand := fun _ _ => 1, fid := "pY" }

def connsABC : List (Nat × ConnState) :=
  [(1, { defaultConn with isOpen := true }), (2, { defaultConn with isOpen := true }),
   (3, { defaultConn with isOpen := true })]

def dbRoomAna : DBRoom :=
  { masterName := "M", sessionName := "S", createdAt := 0,
    players := [("p1", { name := some "Ana", fichaData := some emptyObj })] }

def stAna : ServerState :=
  { db := { rooms := [("VALVE-ABCD", dbRoomAna)] }, live := [], conns := connsABC }

def stEmpty : ServerState := { db := { rooms := [] }, live := [], conns := connsABC }

/-! ### C8 -/

/-- C8: a create_room message whose masterName or sessionName is missing or
empty has no effect at all: the Durable Store, Live Registry and connection
bindings are unchanged and nothing is sent back. -/
theorem create_room_missing_fields_noop (g : Gen) (s : ServerState) (wsId : Nat)
    (mn sn : Option String) (h : truthy mn = false ∨ truthy sn = false) :
    handleMsg g s wsId (.create_room mn sn) = (s, []) := by
  simp only [handleMsg, handleCreateRoom]
  rcases h with h | h <;> simp [h]

theorem create_room_missing_fields_noop_witness :
    truthy none = false ∧ handleMsg genA stEmpty 1 (.create_room none (some "S")) = (stEmpty, []) :=
  ⟨by decide, create_room_missing_fields_noop genA stEmpty 1 none (some "S") (Or.inl (by decide))⟩

/-! ### C3 -/

/-- C3: a reconnect with role player adds the newly minted participant only
to the Live Registry: the Durable Store is completely unchanged by the
transition, and a subsequent ficha_data write from that connection also
leaves the Durable Store unchanged (the payload is not persisted), because
the minted id is absent from the Durable Store. -/
theorem reconnect_player_db_frame (g g2 : Gen) (s : ServerState) (wsId : Nat)
    (name rc fd : Option String) (c : String) (dbRoom : DBRoom)
    (hrc : rc.map jsToUpper = some c) (hc : ¬(c = ""))
    (hdb : alookup s.db.rooms c = some dbRoom)
    (hfresh : alookup dbRoom.players g.fid = none) :
    (handleMsg g s wsId (.reconnect (some "player") name rc)).1.db = s.db ∧
    (∃ lr, alookup (handleMsg g s wsId (.reconnect (some "player") name rc)).1.live c = some lr ∧
      alookup lr.players g.fid =
        some { ws := some wsId, name := name, fichaData := some emptyObj }) ∧
    (handleMsg g2 (handleMsg g s wsId (.reconnect (some "player") name rc)).1 wsId
      (.ficha_data fd)).1.db = s.db := by
  have hne : ¬(("player" : String) = "master") := by decide
  have hstep : handleMsg g s wsId (.reconnect (some "player") name rc) =
      reconnectPlayerCase g s wsId (some "player") name c dbRoom := by
    simp [handleMsg, handleReconnect, hrc, hc, hdb, hne]
  refine ⟨?_, ?_, ?_⟩
  · rw [hstep]; rfl
  · rw [hstep]
    simp only [reconnectPlayerCase]
    exact ⟨_, alookup_aset_self _ _ _, alookup_aset_self _ _ _⟩
  · rw [hstep]
    simp only [reconnectPlayerCase, handleMsg, handleFichaData, getConn,
      alookup_aset_self, Option.getD_some, truthy]
    simp [hc, hdb, hfresh, alookup_aset_self]

theorem reconnect_player_db_frame_witness :
    ((some "valve-abcd" : Option String).map jsToUpper = some "VALVE-ABCD") ∧
    ¬(("VALVE-ABCD" : String) = "") ∧
    alookup stAna.db.rooms "VALVE-ABCD" = some dbRoomAna ∧
    alookup dbRoomAna.players genA.fid = none ∧
    ((handleMsg genA stAna 2 (.reconnect (some "player") (some "Bo") (some "valve-abcd"))).1.db =
      stAna.db ∧
    (∃ lr, alookup (handleMsg genA stAna 2
        (.reconnect (some "player") (some "Bo") (some "valve-abcd"))).1.live "VALVE-ABCD" =
        some lr ∧
      alookup lr.players genA.fid =
        some { ws := some 2, name := some "Bo", fichaData := some emptyObj }) ∧
    (handleMsg genB (handleMsg genA stAna 2
        (.reconnect (some "player") (some "Bo") (some "valve-abcd"))).1 2
        (.ficha_data (some "hp"))).1.db = stAna.db) :=
  ⟨by decide, by decide, by decide, by decide,
   reconnect_player_db_frame genA genB stAna 2 (some "Bo") (some "valve-abcd") (some "hp")
     "VALVE-ABCD" dbRoomAna (by decide) (by decide) (by decide) (by decide)⟩

/-! ### C1 -/

theorem alookup_map_pair_isSome {κ α β : Type} [DecidableEq κ] (g : κ × α → β)
    (l : List (κ × α)) (k : κ) :
    (alookup (l.map (fun p => (p.1, g p))) k).isSome = (alookup l k).isSome := by
  rw [alookup_map_pair]
  cases alookup l k <;> rfl

theorem alookup_seed_isSome (ps : List (String × DBPlayer)) (k : String) :
    (alookup (seedLivePlayers ps) k).isSome = (alookup ps k).isSome := by
  simp only [seedLivePlayers]
  exact alookup_map_pair_isSome _ ps k

theorem alookup_playersSnapshot_isSome (s : ServerState) (code : String) (room : LiveRoom)
    (h : alookup s.live code = some room) (k : String) :
    (alookup (playersSnapshot s code) k).isSome = (alookup room.players k).isSome := by
  simp only [playersSnapshot, h]
  exact alookup_map_pair_isSome _ room.players k

def c1Post : ServerState :=
  (handleMsg genA stAna 1 (.reconnect (some "master") (some "M") (some "VALVE-ABCD"))).1

/-- C1 counterexample: the Durable Store holds participant p1 for room
VALVE-ABCD, and a reconnect (a reconciliation operation) materializes the
room's live entry, yet the live participant set does not contain p1 and the
presence snapshot omits p1, refuting the claimed superset property for
reconnect-materialized rooms. -/
theorem reconnect_materialization_omits_durable_participant :
    (alookup stAna.db.rooms "VALVE-ABCD").isSome = true ∧
    (alookup dbRoomAna.players "p1").isSome = true ∧
    (alookup c1Post.live "VALVE-ABCD").isSome = true ∧
    alookup ((alookup c1Post.live "VALVE-ABCD").getD
      { masterWs := none, players := [] }).players "p1" = none ∧
    alookup (playersSnapshot c1Post "VALVE-ABCD") "p1" = none ∧
    c1Post.db = stAna.db := by decide

/-- C1 (amended): when the live entry for a room is materialized by a
join_room while the Durable Store holds participants for that room, the
live participant set is a superset of the Durable Store participant set and
the presence snapshot lists every durable participant; materialization by
reconnect starts from an empty participant map and does not enjoy this. -/
theorem join_materialization_superset (g : Gen) (s : ServerState) (wsId : Nat)
    (pn rc : Option String) (dbRoom : DBRoom)
    (hpn : truthy pn = true) (hrc : truthy rc = true)
    (hdb : alookup s.db.rooms (jsToUpper (jsTrim (rc.getD ""))) = some dbRoom)
    (hlive : alookup s.live (jsToUpper (jsTrim (rc.getD ""))) = none)
    (id : String) (hid : (alookup dbRoom.players id).isSome = true) :
    (∃ lr, alookup (handleMsg g s wsId (.join_room pn rc)).1.live
        (jsToUpper (jsTrim (rc.getD ""))) = some lr ∧
      (alookup lr.players id).isSome = true) ∧
    (alookup (playersSnapshot (handleMsg g s wsId (.join_room pn rc)).1
        (jsToUpper (jsTrim (rc.getD "")))) id).isSome = true := by
  have hstep : handleMsg g s wsId (.join_room pn rc) =
      joinSuccess g s wsId pn (jsToUpper (jsTrim (rc.getD ""))) dbRoom := by
    simp [handleMsg, handleJoinRoom, hpn, hrc, hdb]
  rw [hstep]
  simp only [joinSuccess, ensureLive, hlive, alookup_aset_self, Option.getD_some]
  have hplayers : (alookup (aset (seedLivePlayers dbRoom.players) g.fid
      { ws := some wsId, name := pn, fichaData := some emptyObj }) id).isSome = true := by
    by_cases hfid : id = g.fid
    · subst hfid
      rw [alookup_aset_self]
      rfl
    · rw [alookup_aset_ne _ _ _ _ hfid, alookup_seed_isSome]
      exact hid
  constructor
  · exact ⟨_, rfl, hplayers⟩
  · rw [alookup_playersSnapshot_isSome _ _ _ (alookup_aset_self _ _ _)]
    exact hplayers

theorem join_materialization_superset_witness :
    truthy (some "Bo") = true ∧
    alookup stAna.db.rooms (jsToUpper (jsTrim " valve-abcd ")) = some dbRoomAna ∧
    alookup stAna.live (jsToUpper (jsTrim " valve-abcd ")) = none ∧
    (alookup dbRoomAna.players "p1").isSome = true ∧
    ((∃ lr, alookup (handleMsg genA stAna 2
        (.join_room (some "Bo") (some " valve-abcd "))).1.live "VALVE-ABCD" = some lr ∧
      (alookup lr.players "p1").isSome = true) ∧
     (alookup (playersSnapshot (handleMsg genA stAna 2
        (.join_room (some "Bo") (some " valve-abcd "))).1 "VALVE-ABCD") "p1").isSome = true) :=
  ⟨by decide, by decide, by decide, by decide,
   join_materialization_superset genA stAna 2 (some "Bo") (some " valve-abcd ") dbRoomAna
     (by decide) (by decide) (by decide) (by decide) "p1" (by decide)⟩

/-! ### C4 -/

/-- C4 counterexample: a join_room for an unknown room code whose playerName
is empty is silently dropped: the sender receives no room_error at all,
refuting the claim that every join_room with an unknown normalized code
yields a room_error to the sender. -/
theorem join_unknown_code_missing_name_silent :
    alookup stEmpty.db.rooms (jsToUpper (jsTrim "NOPE")) = none ∧
    handleMsg genA stEmpty 1 (.join_room (some "") (some "NOPE")) = (stEmpty, []) := by decide

/-- C4 (amended): provided playerName and roomCode are both present and
non-empty, a join_room whose normalized code has no Durable Store entry
sends exactly a room_error (and thus never a room_joined) and leaves the
state unchanged; with a missing or empty required field the message is
silently ignored: nothing at all is sent and the state is unchanged. -/
theorem join_unknown_code_room_error (g : Gen) (s : ServerState) (wsId : Nat)
    (pn rc : Option String)
    (hpn : truthy pn = true) (hrc : truthy rc = true)
    (hdb : alookup s.db.rooms (jsToUpper (jsTrim (rc.getD ""))) = none) :
    handleMsg g s wsId (.join_room pn rc) = (s, send1 s wsId (.room_error roomNotFoundMsg)) ∧
    ∀ pn' rc', truthy pn' = false ∨ truthy rc' = false →
      handleMsg g s wsId (.join_room pn' rc') = (s, []) := by
  constructor
  · simp [handleMsg, handleJoinRoom, hpn, hrc, hdb]
  · intro pn' rc' h
    simp only [handleMsg, handleJoinRoom]
    rcases h with h | h <;> simp [h]

theorem join_unknown_code_room_error_witness :
    truthy (some "Bo") = true ∧ truthy (some "NOPE") = true ∧
    alookup stEmpty.db.rooms (jsToUpper (jsTrim "NOPE")) = none ∧
    (handleMsg genA stEmpty 1 (.join_room (some "Bo") (some "NOPE")) =
        (stEmpty, send1 stEmpty 1 (.room_error roomNotFoundMsg)) ∧
     ∀ pn' rc', truthy pn' = false ∨ truthy rc' = false →
       handleMsg genA stEmpty 1 (.join_room pn' rc') = (stEmpty, [])) :=
  ⟨by decide, by decide, by decide,
   join_unknown_code_room_error genA stEmpty 1 (some "Bo") (some "NOPE")
     (by decide) (by decide) (by decide)⟩

/-! ### C9 -/

theorem pickAux_spec (db : DB) (cand : Nat → Fin 4 → Fin 32) (fuel : Nat) : ∀ i : Nat,
    ∃ k, i ≤ k ∧ k ≤ i + fuel ∧ pickAux db cand i fuel = genCode (cand k) ∧
      (alookup db.rooms (genCode (cand k)) = none ∨ k = i + fuel) ∧
      ∀ j, i ≤ j → j < k → (alookup db.rooms (genCode (cand j))).isSome = true := by
  induction fuel with
  | zero =>
    intro i
    exact ⟨i, le_refl i, by omega, rfl, Or.inr (by omega), fun j hj hjk => by omega⟩
  | succ fuel ih =>
    intro i
    by_cases h : (alookup db.rooms (genCode (cand i))).isSome = true
    · obtain ⟨k, hk1, hk2, hk3, hk4, hk5⟩ := ih (i + 1)
      refine ⟨k, by omega, by omega, ?_, ?_, ?_⟩
      · simp only [pickAux, h, if_true]
        exact hk3
      · rcases hk4 with h4 | h4
        · exact Or.inl h4
        · exact Or.inr (by omega)
      · intro j hj hjk
        by_cases hji : j = i
        · subst hji; exact h
        · exact hk5 j (by omega) hjk
    · refine ⟨i, le_refl i, by omega, ?_, ?_, fun j hj hjk => by omega⟩
      · simp only [pickAux]
        rw [if_neg h]
      · rcases heq : alookup db.rooms (genCode (cand i)) with _ | v
        · exact Or.inl rfl
        · rw [heq] at h
          simp at h

/-- C9: every code the generator returns is the constant prefix VALVE-
followed by exactly 4 characters from the restricted 32-character alphabet,
which excludes the ambiguous glyphs 0, O, 1 and I; and create_room's retry
loop returns one of the first 20 candidates, either the first one free of
collision with a stored code, or, when all 20 collide, the 20th candidate
accepted unchecked. -/
theorem genCode_format_and_retry :
    (∀ r : Fin 4 → Fin 32, ∃ c0 c1 c2 c3, genCode r = "VALVE-" ++ String.mk [c0, c1, c2, c3] ∧
      c0 ∈ roomChars ∧ c1 ∈ roomChars ∧ c2 ∈ roomChars ∧ c3 ∈ roomChars) ∧
    ('0' ∉ roomChars ∧ 'O' ∉ roomChars ∧ '1' ∉ roomChars ∧ 'I' ∉ roomChars) ∧
    (∀ (db : DB) (cand : Nat → Fin 4 → Fin 32), ∃ k, k < 20 ∧
      pickCode db cand = genCode (cand k) ∧
      (alookup db.rooms (pickCode db cand) = none ∨ k = 19) ∧
      ∀ j, j < k → (alookup db.rooms (genCode (cand j))).isSome = true) := by
  have hmem : ∀ i : Fin 32, roomChars.getD i.val 'A' ∈ roomChars := by decide
  refine ⟨?_, by decide, ?_⟩
  · intro r
    exact ⟨_, _, _, _, rfl, hmem (r 0), hmem (r 1), hmem (r 2), hmem (r 3)⟩
  · intro db cand
    obtain ⟨k, hk1, hk2, hk3, hk4, hk5⟩ := pickAux_spec db cand 19 0
    refine ⟨k, by omega, hk3, ?_, fun j hj => hk5 j (by omega) hj⟩
    rw [show pickCode db cand = pickAux db cand 0 19 from rfl, hk3]
    rcases hk4 with h4 | h4
    · exact Or.inl h4
    · exact Or.inr (by omega)

/-! ### C2 -/

def c2S1 : ServerState := (handleMsg genA stEmpty 1 (.create_room (some "M") (some "S"))).1

def c2S2 : ServerState :=
  (handleMsg genB c2S1 2 (.reconnect (some "player") (some "Bo") (some "VALVE-AAAA"))).1

def c2Out : ServerState × List (Nat × OutMsg) := handleMsg genA c2S2 2 (.ficha_data (some "hp10"))

/-- C2 counterexample: a player admitted by reconnect is an active player of
a live room, and its ficha_data is applied to the Live Registry and
forwarded to the master, yet the room's Durable Store entry still has no
record for that participant at all, so the payload is not replaced in the
Durable Store, refuting the claim that the payload is written to both
stores for every active player. -/
theorem ficha_data_reconnect_player_not_persisted :
    (getConn c2S2 2).role = some "player" ∧
    (getConn c2S2 2).roomCode = some "VALVE-AAAA" ∧
    (getConn c2S2 2).playerId = some "pY" ∧
    (alookup c2S2.live "VALVE-AAAA").isSome = true ∧
    (∃ lr, alookup c2Out.1.live "VALVE-AAAA" = some lr ∧
      (alookup lr.players "pY").map LivePlayer.fichaData = some (some "hp10")) ∧
    c2Out.2 = [(1, .ficha_update (some "pY") (some "hp10"))] ∧
    (alookup c2Out.1.db.rooms "VALVE-AAAA").map (fun dr => alookup dr.players "pY") =
      some none := by decide

theorem send1_eq_of_isOpen (s : ServerState) (cid : Nat) (m : OutMsg)
    (h : (getConn s cid).isOpen = true) : send1 s cid m = [(cid, m)] := by
  simp [send1, h]

theorem send1_eq_of_not_isOpen (s : ServerState) (cid : Nat) (m : OutMsg)
    (h : (getConn s cid).isOpen = false) : send1 s cid m = [] := by
  simp [send1, h]

/-- C2 (amended): for a ficha_data from an active player of a live room, the
payload is replaced wholesale in the Live Registry whenever the sender's id
is present there, and in the Durable Store only when the Durable Store
already holds that participant (an id minted by reconnect is absent there,
so its payload is not persisted); a ficha_update with the sender's id and
payload goes to the master connection when one is attached and open; a
message from a sender that is not an active player has no effect. -/
theorem ficha_data_effects (g : Gen) (s : ServerState) (wsId : Nat) (fd : Option String)
    (code : String) (room : LiveRoom)
    (hrole : (getConn s wsId).role = some "player")
    (hrc : (getConn s wsId).roomCode = some code) (hcode : ¬(code = ""))
    (hlive : alookup s.live code = some room) :
    (∀ p, alookup room.players ((getConn s wsId).playerId.getD "undefined") = some p →
      ∃ lr, alookup (handleMsg g s wsId (.ficha_data fd)).1.live code = some lr ∧
        alookup lr.players ((getConn s wsId).playerId.getD "undefined") =
          some { p with fichaData := fd }) ∧
    (∀ dr dp, alookup s.db.rooms code = some dr →
      alookup dr.players ((getConn s wsId).playerId.getD "undefined") = some dp →
      ∃ dr2, alookup (handleMsg g s wsId (.ficha_data fd)).1.db.rooms code = some dr2 ∧
        alookup dr2.players ((getConn s wsId).playerId.getD "undefined") =
          some { dp with fichaData := fd }) ∧
    (∀ dr, alookup s.db.rooms code = some dr →
      alookup dr.players ((getConn s wsId).playerId.getD "undefined") = none →
      (handleMsg g s wsId (.ficha_data fd)).1.db = s.db) ∧
    (∀ m, room.masterWs = some m → (getConn s m).isOpen = true →
      (handleMsg g s wsId (.ficha_data fd)).2 =
        [(m, .ficha_update (getConn s wsId).playerId fd)]) ∧
    (∀ m, room.masterWs = some m → (getConn s m).isOpen = false →
      (handleMsg g s wsId (.ficha_data fd)).2 = []) ∧
    (room.masterWs = none → (handleMsg g s wsId (.ficha_data fd)).2 = []) ∧
    (∀ (s' : ServerState) (w : Nat) (fd' : Option String),
      ¬((getConn s' w).role = some "player") →
      handleMsg g s' w (.ficha_data fd') = (s', [])) := by
  have htr : truthy (some code) = true := by simp [truthy, hcode]
  simp only [handleMsg, handleFichaData, hrole, hrc, htr, Option.getD_some, hlive]
  simp only [and_self, if_true, true_and, and_true, eq_self_iff_true]
  refine ⟨?_, ?_, ?_, ?_, ?_, ?_, ?_⟩
  · intro p hp
    simp only [hp]
    exact ⟨_, alookup_aset_self _ _ _, alookup_aset_self _ _ _⟩
  · intro dr dp h1 h2
    simp only [h1, h2]
    exact ⟨_, alookup_aset_self _ _ _, alookup_aset_self _ _ _⟩
  · intro dr h1 h2
    simp only [h1, h2]
  · intro m hm hopen
    simp only [hm]
    exact send1_eq_of_isOpen _ _ _ hopen
  · intro m hm hopen
    simp only [hm]
    exact send1_eq_of_not_isOpen _ _ _ hopen
  · intro hm
    rw [hm]
  · intro s' w fd' h
    simp [h]

def c2jS2 : ServerState :=
  (handleMsg genB c2S1 2 (.join_room (some "Bo") (some "VALVE-AAAA"))).1

def c2Room : LiveRoom :=
  { masterWs := some 1,
    players := [("pY", { ws := some 2, name := some "Bo", fichaData := some emptyObj })] }

def c2DbRoom : DBRoom :=
  { masterName := "M", sessionName := "S", createdAt := 5,
    players := [("pY", { name := some "Bo", fichaData := some emptyObj })] }

theorem ficha_data_effects_witness :
    (getConn c2jS2 2).role = some "player" ∧
    (getConn c2jS2 2).roomCode = some "VALVE-AAAA" ∧
    ¬(("VALVE-AAAA" : String) = "") ∧
    alookup c2jS2.live "VALVE-AAAA" = some c2Room ∧
    alookup c2jS2.db.rooms "VALVE-AAAA" = some c2DbRoom ∧
    alookup c2DbRoom.players ((getConn c2jS2 2).playerId.getD "undefined") =
      some { name := some "Bo", fichaData := some emptyObj } ∧
    (∃ dr2, alookup (handleMsg genA c2jS2 2 (.ficha_data (some "hp10"))).1.db.rooms
        "VALVE-AAAA" = some dr2 ∧
      alookup dr2.players ((getConn c2jS2 2).playerId.getD "undefined") =
        some { name := some "Bo", fichaData := some "hp10" }) :=
  ⟨by decide, by decide, by decide, by decide, by decide, by decide,
   (ficha_data_effects genA c2jS2 2 (some "hp10") "VALVE-AAAA" c2Room
      (by decide) (by decide) (by decide) (by decide)).2.1
     c2DbRoom { name := some "Bo", fichaData := some emptyObj } (by decide) (by decide)⟩

/-! ### C5 -/

/-- The DBPlayer record join_room persists for a fresh participant. -/
def newDBPlayer (pn : Option String) : DBPlayer := { name := pn, fichaData := some emptyObj }

/-- The LivePlayer record join_room and reconnect attach for a fresh participant. -/
def newLivePlayer (wsId : Nat) (pn : Option String) : LivePlayer :=
  { ws := some wsId, name := pn, fichaData := some emptyObj }

theorem ensureLive_lookup (s : ServerState) (code : String) (seed : List (String × LivePlayer)) :
    alookup (ensureLive s code seed) code =
      some ((alookup s.live code).getD { masterWs := none, players := seed }) := by
  simp only [ensureLive]
  rcases h : alookup s.live code with _ | r
  · simp [alookup_aset_self]
  · simpa using h

/-- C5: two successive join_room messages on the same existing room code
with the same player name allocate the two ids handed out by the id
generator regardless of the name (a name is not an identity), so when those
generator outputs are distinct the two room_joined replies carry distinct
participant ids and the presence snapshot afterwards lists both. -/
theorem join_twice_distinct_ids (g1 g2 : Gen) (s : ServerState) (wsA wsB : Nat)
    (pn rc : Option String) (dbRoom : DBRoom)
    (hpn : truthy pn = true) (hrc : truthy rc = true)
    (hdb : alookup s.db.rooms (jsToUpper (jsTrim (rc.getD ""))) = some dbRoom)
    (hne : g1.fid ≠ g2.fid)
    (hA : (getConn s wsA).isOpen = true) (hB : (getConn s wsB).isOpen = true) :
    (∃ rest, (handleMsg g1 s wsA (.join_room pn rc)).2 =
      (wsA, OutMsg.room_joined (jsToUpper (jsTrim (rc.getD ""))) dbRoom.sessionName g1.fid) ::
        rest) ∧
    (∃ rest, (handleMsg g2 (handleMsg g1 s wsA (.join_room pn rc)).1 wsB (.join_room pn rc)).2 =
      (wsB, OutMsg.room_joined (jsToUpper (jsTrim (rc.getD ""))) dbRoom.sessionName g2.fid) ::
        rest) ∧
    (alookup (playersSnapshot (handleMsg g2 (handleMsg g1 s wsA (.join_room pn rc)).1 wsB
        (.join_room pn rc)).1 (jsToUpper (jsTrim (rc.getD "")))) g1.fid).isSome = true ∧
    (alookup (playersSnapshot (handleMsg g2 (handleMsg g1 s wsA (.join_room pn rc)).1 wsB
        (.join_room pn rc)).1 (jsToUpper (jsTrim (rc.getD "")))) g2.fid).isSome = true := by
  obtain ⟨n, hn⟩ : ∃ x, jsToUpper (jsTrim (rc.getD "")) = x := ⟨_, rfl⟩
  rw [hn] at hdb ⊢
  have hstep1 : handleMsg g1 s wsA (.join_room pn rc) = joinSuccess g1 s wsA pn n dbRoom := by
    simp [handleMsg, handleJoinRoom, hn, hpn, hrc, hdb]
  rw [hstep1]
  obtain ⟨S1, hS1⟩ : ∃ x, (joinSuccess g1 s wsA pn n dbRoom).1 = x := ⟨_, rfl⟩
  have hdb1 : alookup S1.db.rooms n = some { dbRoom with players := aset dbRoom.players g1.fid (newDBPlayer pn) } := by
    rw [← hS1]
    simp only [joinSuccess]
    exact alookup_aset_self _ _ _
  obtain ⟨R1, hR1⟩ : ∃ x, ((alookup s.live n).getD { masterWs := none, players := seedLivePlayers dbRoom.players } : LiveRoom) = x := ⟨_, rfl⟩
  have hlive1 : alookup S1.live n = some { R1 with players := aset R1.players g1.fid (newLivePlayer wsA pn) } := by
    rw [← hS1]
    simp only [joinSuccess, ensureLive_lookup, Option.getD_some, hR1]
    exact alookup_aset_self _ _ _
  have hconns1 : S1.conns = aset s.conns wsA { getConn s wsA with role := some "player", roomCode := some n, name := pn, playerId := some g1.fid } := by
    rw [← hS1]
    rfl
  have hstep2 : handleMsg g2 S1 wsB (.join_room pn rc) = joinSuccess g2 S1 wsB pn n { dbRoom with players := aset dbRoom.players g1.fid (newDBPlayer pn) } := by
    simp [handleMsg, handleJoinRoom, hn, hpn, hrc, hdb1]
  rw [hS1, hstep2]
  have hlive2 : alookup (joinSuccess g2 S1 wsB pn n { dbRoom with players := aset dbRoom.players g1.fid (newDBPlayer pn) }).1.live n = some { R1 with players := aset (aset R1.players g1.fid (newLivePlayer wsA pn)) g2.fid (newLivePlayer wsB pn) } := by
    simp only [joinSuccess, ensureLive_lookup, Option.getD_some, hlive1]
    exact alookup_aset_self _ _ _
  refine ⟨?_, ?_, ?_, ?_⟩
  · simp only [joinSuccess]
    rw [send1_eq_of_isOpen]
    · exact ⟨_, rfl⟩
    · simp only [getConn, alookup_aset_self, Option.getD_some]
      exact hA
  · simp only [joinSuccess]
    rw [send1_eq_of_isOpen]
    · exact ⟨_, rfl⟩
    · simp only [getConn, hconns1, alookup_aset_self, Option.getD_some]
      by_cases hw : wsB = wsA
      · subst hw
        simp only [alookup_aset_self, Option.getD_some]
        exact hA
      · rw [alookup_aset_ne _ _ _ _ hw]
        exact hB
  · rw [alookup_playersSnapshot_isSome _ _ _ hlive2]
    simp only [alookup_aset_ne _ _ _ _ hne, alookup_aset_self, Option.isSome_some]
  · rw [alookup_playersSnapshot_isSome _ _ _ hlive2]
    simp only [alookup_aset_self, Option.isSome_some]

/-! ### C6 -/

/-- C6: a request_ficha from a master bound to a live room, naming a
participant id: when that participant has an open live connection, a
send_ficha is sent to that connection and nothing is sent to the master
synchronously; otherwise (id unknown to the live room, no attached socket,
or socket not open) the master immediately receives a ficha_update with the
Durable Store's last known payload for that id, or the empty object if none
exists. -/
theorem request_ficha_routing (g : Gen) (s : ServerState) (wsId : Nat) (pid : Option String)
    (code : String) (room : LiveRoom)
    (hrole : (getConn s wsId).role = some "master")
    (hrc : (getConn s wsId).roomCode = some code) (hcode : ¬(code = ""))
    (hlive : alookup s.live code = some room)
    (hopen : (getConn s wsId).isOpen = true) :
    (∀ p w, alookup room.players (pid.getD "undefined") = some p → p.ws = some w →
      (getConn s w).isOpen = true →
      handleMsg g s wsId (.request_ficha pid) = (s, [(w, OutMsg.send_ficha)])) ∧
    (alookup room.players (pid.getD "undefined") = none →
      handleMsg g s wsId (.request_ficha pid) =
        (s, [(wsId, OutMsg.ficha_update pid (cachedFicha s code (pid.getD "undefined")))])) ∧
    (∀ p, alookup room.players (pid.getD "undefined") = some p → p.ws = none →
      handleMsg g s wsId (.request_ficha pid) =
        (s, [(wsId, OutMsg.ficha_update pid (cachedFicha s code (pid.getD "undefined")))])) ∧
    (∀ p w, alookup room.players (pid.getD "undefined") = some p → p.ws = some w →
      (getConn s w).isOpen = false →
      handleMsg g s wsId (.request_ficha pid) =
        (s, [(wsId, OutMsg.ficha_update pid (cachedFicha s code (pid.getD "undefined")))])) := by
  have htr : truthy (some code) = true := by simp [truthy, hcode]
  simp only [handleMsg, handleRequestFicha, hrole, hrc, htr, Option.getD_some, hlive]
  simp only [and_self, if_true, true_and, and_true, eq_self_iff_true]
  refine ⟨?_, ?_, ?_, ?_⟩
  · intro p w hp hw ho
    simp only [hp, hw, ho, if_true]
    rw [send1_eq_of_isOpen _ _ _ ho]
  · intro hnone
    simp only [hnone]
    rw [send1_eq_of_isOpen _ _ _ hopen]
  · intro p hp hw
    simp only [hp, hw]
    rw [send1_eq_of_isOpen _ _ _ hopen]
  · intro p w hp hw ho
    simp only [hp, hw, ho, Bool.false_eq_true, if_false]
    rw [send1_eq_of_isOpen _ _ _ hopen]

theorem join_twice_distinct_ids_witness :
    truthy (some "Bo") = true ∧
    alookup stAna.db.rooms (jsToUpper (jsTrim "VALVE-ABCD")) = some dbRoomAna ∧
    genA.fid ≠ genB.fid ∧
    ((∃ rest, (handleMsg genA stAna 1 (.join_room (some "Bo") (some "VALVE-ABCD"))).2 =
        (1, OutMsg.room_joined (jsToUpper (jsTrim "VALVE-ABCD")) dbRoomAna.sessionName genA.fid) :: rest) ∧
     (∃ rest, (handleMsg genB (handleMsg genA stAna 1 (.join_room (some "Bo") (some "VALVE-ABCD"))).1 2 (.join_room (some "Bo") (some "VALVE-ABCD"))).2 =
        (2, OutMsg.room_joined (jsToUpper (jsTrim "VALVE-ABCD")) dbRoomAna.sessionName genB.fid) :: rest) ∧
     (alookup (playersSnapshot (handleMsg genB (handleMsg genA stAna 1 (.join_room (some "Bo") (some "VALVE-ABCD"))).1 2 (.join_room (some "Bo") (some "VALVE-ABCD"))).1 (jsToUpper (jsTrim "VALVE-ABCD"))) genA.fid).isSome = true ∧
     (alookup (playersSnapshot (handleMsg genB (handleMsg genA stAna 1 (.join_room (some "Bo") (some "VALVE-ABCD"))).1 2 (.join_room (some "Bo") (some "VALVE-ABCD"))).1 (jsToUpper (jsTrim "VALVE-ABCD"))) genB.fid).isSome = true) :=
  ⟨by decide, by decide, by decide,
   join_twice_distinct_ids genA genB stAna 1 2 (some "Bo") (some "VALVE-ABCD") dbRoomAna
     (by decide) (by decide) (by decide) (by decide) (by decide) (by decide)⟩

theorem request_ficha_routing_witness :
    ((getConn c2jS2 1).role = some "master" ∧
     (getConn c2jS2 1).roomCode = some "VALVE-AAAA" ∧
     alookup c2jS2.live "VALVE-AAAA" = some c2Room ∧
     (getConn c2jS2 1).isOpen = true ∧
     alookup c2Room.players ((some "pY" : Option String).getD "undefined") =
       some { ws := some 2, name := some "Bo", fichaData := some emptyObj } ∧
     (getConn c2jS2 2).isOpen = true ∧
     handleMsg genA c2jS2 1 (.request_ficha (some "pY")) = (c2jS2, [(2, OutMsg.send_ficha)])) ∧
    ((getConn c1Post 1).role = some "master" ∧
     alookup c1Post.live "VALVE-ABCD" = some { masterWs := some 1, players := [] } ∧
     alookup ({ masterWs := some 1, players := [] } : LiveRoom).players
       ((some "p1" : Option String).getD "undefined") = none ∧
     handleMsg genA c1Post 1 (.request_ficha (some "p1")) =
       (c1Post, [(1, OutMsg.ficha_update (some "p1")
         (cachedFicha c1Post "VALVE-ABCD" ((some "p1" : Option String).getD "undefined")))])) :=
  ⟨⟨by decide, by decide, by decide, by decide, by decide, by decide,
    (request_ficha_routing genA c2jS2 1 (some "pY") "VALVE-AAAA" c2Room
       (by decide) (by decide) (by decide) (by decide) (by decide)).1
      { ws := some 2, name := some "Bo", fichaData := some emptyObj } 2
      (by decide) (by decide) (by decide)⟩,
   ⟨by decide, by decide, by decide,
    (request_ficha_routing genA c1Post 1 (some "p1") "VALVE-ABCD"
       { masterWs := some 1, players := [] }
       (by decide) (by decide) (by decide) (by decide) (by decide)).2.1 (by decide)⟩⟩

/-! ### C7 -/

/-- C7: after one run of the Retention Sweeper at time now, a stored room
whose age exceeds 48 hours is absent from both the Durable Store and the
Live Registry and a subsequent join_room with its code yields exactly a
room_error with no state change, while a room 48 hours old or younger is
untouched in both stores. -/
theorem retention_sweep_correct (s : ServerState) (now : Nat) (code : String) (room : DBRoom)
    (hnd : (s.db.rooms.map Prod.fst).Nodup)
    (hdb : alookup s.db.rooms code = some room)
    (hnorm : jsToUpper (jsTrim code) = code) (hcode : ¬(code = "")) :
    (room.createdAt + TTL_MS < now →
      alookup (sweepRooms now s).db.rooms code = none ∧
      alookup (sweepRooms now s).live code = none ∧
      ∀ (g : Gen) (wsId : Nat) (pn : Option String), truthy pn = true →
        handleMsg g (sweepRooms now s) wsId (.join_room pn (some code)) =
          (sweepRooms now s, send1 (sweepRooms now s) wsId (.room_error roomNotFoundMsg))) ∧
    (now ≤ room.createdAt + TTL_MS →
      alookup (sweepRooms now s).db.rooms code = some room ∧
      alookup (sweepRooms now s).live code = alookup s.live code) := by
  constructor
  · intro hage
    have hlt : room.createdAt < now - TTL_MS := by omega
    have hold : isOld (now - TTL_MS) room = true := by simp [isOld, hlt]
    have hdbnone : alookup (sweepRooms now s).db.rooms code = none := by
      simp only [sweepRooms]
      exact alookup_filter_nodup_neg _ _ _ _ hnd hdb (by simp [hold])
    have hlivenone : alookup (sweepRooms now s).live code = none := by
      simp only [sweepRooms]
      apply alookup_filter_key_neg
      intro v
      simp [hdb, hold]
    refine ⟨hdbnone, hlivenone, ?_⟩
    intro g wsId pn hpn
    have htr : truthy (some code) = true := by simp [truthy, hcode]
    simp [handleMsg, handleJoinRoom, hpn, htr, hnorm, hdbnone]
  · intro hage
    have hlt : ¬(room.createdAt < now - TTL_MS) := by omega
    have hyoung : isOld (now - TTL_MS) room = false := by simp [isOld, hlt]
    constructor
    · simp only [sweepRooms]
      exact alookup_filter_first_pos _ _ _ _ hdb (by simp [hyoung])
    · simp only [sweepRooms]
      apply alookup_filter_key_pos
      intro v
      simp [hdb, hyoung]

theorem retention_sweep_correct_witness :
    (stAna.db.rooms.map Prod.fst).Nodup ∧
    alookup stAna.db.rooms "VALVE-ABCD" = some dbRoomAna ∧
    jsToUpper (jsTrim "VALVE-ABCD") = "VALVE-ABCD" ∧
    dbRoomAna.createdAt + TTL_MS < TTL_MS + 1 ∧
    (alookup (sweepRooms (TTL_MS + 1) stAna).db.rooms "VALVE-ABCD" = none ∧
     alookup (sweepRooms (TTL_MS + 1) stAna).live "VALVE-ABCD" = none ∧
     ∀ (g : Gen) (wsId : Nat) (pn : Option String), truthy pn = true →
       handleMsg g (sweepRooms (TTL_MS + 1) stAna) wsId (.join_room pn (some "VALVE-ABCD")) =
         (sweepRooms (TTL_MS + 1) stAna,
          send1 (sweepRooms (TTL_MS + 1) stAna) wsId (.room_error roomNotFoundMsg))) :=
  ⟨by decide, by decide, by decide, by decide,
   (retention_sweep_correct stAna (TTL_MS + 1) "VALVE-ABCD" dbRoomAna
      (by decide) (by decide) (by decide) (by decide)).1 (by decide)⟩

/-! ### C10 -/

/-- C10: join_room normalizes the supplied room code by trimming and
uppercasing before the Durable Store lookup and binds all subsequent state
to the normalized code (so a code differing from a stored one only in case
or surrounding whitespace joins that room), whereas reconnect uppercases
the code without trimming it: a reconnect whose merely-uppercased code is
not stored is a no-op. -/
theorem join_normalizes_reconnect_does_not_trim (g : Gen) (s : ServerState) (wsId : Nat)
    (pn : Option String) (c0 : String) (dbRoom : DBRoom)
    (hpn : truthy pn = true) (hc0 : ¬(c0 = ""))
    (hdb : alookup s.db.rooms (jsToUpper (jsTrim c0)) = some dbRoom)
    (hopen : (getConn s wsId).isOpen = true) :
    ((getConn (handleMsg g s wsId (.join_room pn (some c0))).1 wsId).roomCode =
        some (jsToUpper (jsTrim c0)) ∧
     (∃ rest, (handleMsg g s wsId (.join_room pn (some c0))).2 =
        (wsId, OutMsg.room_joined (jsToUpper (jsTrim c0)) dbRoom.sessionName g.fid) :: rest) ∧
     (alookup (handleMsg g s wsId (.join_room pn (some c0))).1.live
        (jsToUpper (jsTrim c0))).isSome = true) ∧
    (∀ (role name : Option String) (c1 : String), alookup s.db.rooms (jsToUpper c1) = none →
      handleMsg g s wsId (.reconnect role name (some c1)) = (s, [])) := by
  have htr : truthy (some c0) = true := by simp [truthy, hc0]
  have hstep : handleMsg g s wsId (.join_room pn (some c0)) =
      joinSuccess g s wsId pn (jsToUpper (jsTrim c0)) dbRoom := by
    simp [handleMsg, handleJoinRoom, hpn, htr, hdb]
  constructor
  · refine ⟨?_, ?_, ?_⟩
    · rw [hstep]
      simp only [joinSuccess]
      simp only [getConn, alookup_aset_self, Option.getD_some]
    · rw [hstep]
      simp only [joinSuccess]
      rw [send1_eq_of_isOpen]
      · exact ⟨_, rfl⟩
      · simp only [getConn, alookup_aset_self, Option.getD_some]
        exact hopen
    · rw [hstep]
      simp only [joinSuccess]
      rw [alookup_aset_self]
      rfl
  · intro role name c1 hnone
    by_cases hc1 : jsToUpper c1 = ""
    · simp [handleMsg, handleReconnect, hc1]
    · simp [handleMsg, handleReconnect, hc1, hnone]

theorem join_normalizes_reconnect_does_not_trim_witness :
    truthy (some "Bo") = true ∧ ¬((" valve-abcd " : String) = "") ∧
    alookup stAna.db.rooms (jsToUpper (jsTrim " valve-abcd ")) = some dbRoomAna ∧
    (getConn stAna 1).isOpen = true ∧
    (getConn (handleMsg genA stAna 1
      (.join_room (some "Bo") (some " valve-abcd "))).1 1).roomCode = some "VALVE-ABCD" ∧
    alookup stAna.db.rooms (jsToUpper " VALVE-ABCD") = none ∧
    handleMsg genA stAna 1 (.reconnect (some "master") (some "M") (some " VALVE-ABCD")) =
      (stAna, []) :=
  ⟨by decide, by decide, by decide, by decide,
   ((join_normalizes_reconnect_does_not_trim genA stAna 1 (some "Bo") " valve-abcd " dbRoomAna
      (by decide) (by decide) (by decide) (by decide)).1).1,
   by decide,
   (join_normalizes_reconnect_does_not_trim genA stAna 1 (some "Bo") " valve-abcd " dbRoomAna
      (by decide) (by decide) (by decide) (by decide)).2 (some "master") (some "M")
     " VALVE-ABCD" (by decide)⟩

theorem genCode_format_and_retry_witness :
    ∃ k, k < 20 ∧ pickCode stAna.db (fun _ _ => (0 : Fin 32)) =
      genCode ((fun _ _ => (0 : Fin 32)) k) ∧
    (alookup stAna.db.rooms (pickCode stAna.db (fun _ _ => (0 : Fin 32))) = none ∨ k = 19) ∧
    ∀ j, j < k →
      (alookup stAna.db.rooms (genCode ((fun _ _ => (0 : Fin 32)) j))).isSome = true :=
  genCode_format_and_retry.2.2 stAna.db (fun _ _ => (0 : Fin 32))
